import Mathlib

/-!
Verification development for the Keysight oscilloscope control library
(`keysight_visa_control.py`).

Shallow embedding: the pyvisa session is modelled by two response oracles
(`dev` for textual queries, `binDev` for binary queries).  Every operation
returns its result as an `Except` value together with the ordered list of
session-level I/O events it performed, so that claims about "zero
instrument I/O" and about exact transmitted command text are statements
about the event trace.  Python exceptions are modelled as `Except.error`
values; Python dicts as ordered association lists (insertion order, which
is what `dict` iteration follows).
-/

/-- One session-level I/O exchange with the instrument.  `queryE` is a raw
textual query (text includes the trailing question mark), `write` a raw
command write, `binQuery` a binary-payload query. -/
inductive Event where
  | queryE (q : String)
  | write (c : String)
  | binQuery (q : String)
  deriving Repr, DecidableEq

/-- The exception values the Python code can raise, with the payloads the
source interpolates into the exception messages. -/
inductive ScopeError where
  /-- generic `Exception` raised by `_check_instrument_errors` when the
  system-error response does not start with the no-error sentinel; carries
  the offending command text and the device error string. -/
  | instrumentFault (command : String) (errorString : String)
  /-- `ValueError("MAJOR SYSTEM ERROR")` raised by `_check_instrument_errors`
  when the system-error query returns an empty string; carries the command. -/
  | majorSystemError (command : String)
  /-- `ValueError` raised by `Setting._set` when the key is not an editable
  setting (not in the allowed-commands table). -/
  | notEditable (key : String)
  /-- `ValueError` raised by `Setting._set` when the value is not in a
  multi-element allow-set. -/
  | invalidValue (val : String)
  /-- `ValueError` raised by `KeysightControl.setup_capture` for a source
  that is not one of the channel identifiers. -/
  | invalidChannel (source : String)
  /-- `ValueError` raised by `Trigger.set_mode` for any mode other than
  edge. -/
  | unsupportedMode (mode : String)
  /-- Python `KeyError` from indexing a dict with a missing key. -/
  | keyError (key : String)
  /-- Python `NameError` from an undefined identifier. -/
  | nameError (ident : String)
  /-- Python `AttributeError` from accessing a missing attribute. -/
  | attributeError (attr : String)
  deriving Repr, DecidableEq

/-- The `Scope` wrapper of the pyvisa resource.  The live instrument is
modelled by the two oracles: `dev` maps each raw textual query (with its
question mark) to the response text, `binDev` maps a binary query to the
returned byte list. -/
structure Scope where
  dev : String → String
  binDev : String → List Int
  loud : Bool

/-- Result of an operation: the `Except` outcome paired with the trace of
session-level I/O events it performed, in order. -/
abbrev OpRes (α : Type) : Type := Except ScopeError α × List Event

/-- Sequencing of traced operations: on success the traces concatenate, on
failure the rest of the operation never runs (a raised exception aborts). -/
def stepBind {α β : Type} (x : OpRes α) (f : α → OpRes β) : OpRes β :=
  match x with
  | (Except.ok a, ev) => ((f a).1, ev ++ (f a).2)
  | (Except.error e, ev) => (Except.error e, ev)

/-- Model of Python `str.lower()` by mapping `Char.toLower` over the
characters (all keys the source lower-cases are ASCII). -/
def pyLower (s : String) : String := String.mk (s.data.map Char.toLower)

/-- Model of Python `str.strip()`: drop leading and trailing whitespace. -/
def pyStrip (s : String) : String :=
  String.mk (((s.data.dropWhile Char.isWhitespace).reverse.dropWhile
    Char.isWhitespace).reverse)

/-- Embedding of `Scope._check_instrument_errors`.  The Python `while True`
loop breaks or raises on every branch, so it always runs exactly one
iteration: one `:SYSTem:ERRor?` query.  The test
`error_string.find("+0,", 0, 3) == -1` searches for the three-character
sentinel inside the first three characters, which holds exactly when the
string does not start with the sentinel, i.e. `error_string.take 3` differs
from the sentinel. -/
def Scope.check_instrument_errors (sc : Scope) (command : String) : OpRes Unit :=
  let error_string := sc.dev (":SYSTem:ERRor?")
  if error_string ≠ "" then
    if (error_string.take 3) ≠ "+0," then
      (Except.error (ScopeError.instrumentFault command error_string),
        [Event.queryE (":SYSTem:ERRor?")])
    else
      (Except.ok (), [Event.queryE (":SYSTem:ERRor?")])
  else
    (Except.error (ScopeError.majorSystemError command),
      [Event.queryE (":SYSTem:ERRor?")])

/-- Embedding of `Scope.query`: send `q ++ "?"`, verify the error queue
with the same text, return the stripped response. -/
def Scope.query (sc : Scope) (q : String) : OpRes String :=
  let result := sc.dev (q ++ "?")
  let chk := sc.check_instrument_errors (q ++ "?")
  (chk.1.map (fun _ => pyStrip result), Event.queryE (q ++ "?") :: chk.2)

/-- Embedding of `Scope.command`: write the command text, then verify the
error queue with the same text. -/
def Scope.command (sc : Scope) (c : String) : OpRes Unit :=
  let chk := sc.check_instrument_errors c
  (chk.1, Event.write c :: chk.2)

/-- The SCPI command text `:NAME:SUFFIX` built by the f-strings of the
source. -/
def qcmd (name sfx : String) : String := ":" ++ name ++ ":" ++ sfx

/-- Embedding of the generic `Setting` class.  The two Python dicts become
ordered association lists with unique keys; `state` is the cached mapping
from display name to last-observed value and `state_in_date` the freshness
flag. -/
structure Setting where
  scope : Scope
  cmd_name : String
  cmd_short : String
  queries : List (String × String)
  alwd_cmds : List (String × List String)
  loud : Bool
  state_in_date : Bool
  state : List (String × String)

/-- Embedding of the `Setting.__queries_lowers` property: the query table
with the display-name keys lower-cased. -/
def Setting.queries_lowers (st : Setting) : List (String × String) :=
  st.queries.map (fun kv => (pyLower kv.1, kv.2))

/-- The query loop inside `Setting.refresh_state`: one `Scope.query` of
`:cmd_name:suffix` per table entry, in table order, storing each stripped
response under its display name.  A failing query aborts the loop with the
events performed so far. -/
def runQueries (sc : Scope) (name : String) :
    List (String × String) → OpRes (List (String × String))
  | [] => (Except.ok [], [])
  | p :: rest =>
    match Scope.query sc (qcmd name p.2) with
    | (Except.ok v, ev) =>
      match runQueries sc name rest with
      | (Except.ok settings, ev2) => (Except.ok ((p.1, pyStrip v) :: settings), ev ++ ev2)
      | (Except.error e, ev2) => (Except.error e, ev ++ ev2)
    | (Except.error e, ev) => (Except.error e, ev)

/-- Embedding of `Setting.refresh_state`.  Returns the updated object and
the mapping it returns (the Python method mutates `self` and returns the
settings dict). -/
def Setting.refresh_state (st : Setting) : OpRes (Setting × List (String × String)) :=
  if st.state_in_date then
    (Except.ok (st, st.state), [])
  else
    match runQueries st.scope st.cmd_name st.queries with
    | (Except.ok settings, ev) =>
      (Except.ok ({ st with state := settings, state_in_date := true }, settings), ev)
    | (Except.error e, ev) => (Except.error e, ev)

/-- Embedding of `Setting._set`.  The key is lower-cased, checked against
the allowed-commands table (raising before any I/O when absent), the value
is checked against the allow-set only when that set has more than one
element (raising before any I/O on failure), then the command
`:cmd_name:suffix value` is transmitted and the freshness flag cleared.
Looking up the suffix in `queries_lowers` raises a `KeyError` when the key
has no query entry (this happens inside the f-string, before the write).
When `refresh` is true the method ends with a `refresh_state` call. -/
def Setting._set (st : Setting) (s : String) (val : String) (refresh : Bool) :
    OpRes Setting :=
  let s := pyLower s
  match st.alwd_cmds.lookup s with
  | none => (Except.error (ScopeError.notEditable s), [])
  | some allowed =>
    if allowed.length > 1 && !(allowed.contains val) then
      (Except.error (ScopeError.invalidValue val), [])
    else
      match st.queries_lowers.lookup s with
      | none => (Except.error (ScopeError.keyError s), [])
      | some sfx =>
        stepBind (Scope.command st.scope (qcmd st.cmd_name sfx ++ " " ++ val)) (fun _ =>
          let st1 : Setting := { st with state_in_date := false }
          if refresh then
            stepBind st1.refresh_state (fun p => (Except.ok p.1, []))
          else
            (Except.ok st1, []))

/-- Embedding of `Setting.__init__`: store the tables, compute the short
name from the upper-case characters of the command name, start with the
freshness flag false and immediately populate `state` via `refresh_state`. -/
def Setting.init (sc : Scope) (cmd_name : String) (queries : List (String × String))
    (alwd_cmds : List (String × List String)) (loud : Bool) : OpRes Setting :=
  let st0 : Setting :=
    { scope := sc
      cmd_name := cmd_name
      cmd_short := String.mk (cmd_name.toList.filter Char.isUpper)
      queries := queries
      alwd_cmds := alwd_cmds
      loud := loud
      state_in_date := false
      state := [] }
  stepBind st0.refresh_state (fun p => (Except.ok p.1, []))

/-- The trigger query table of `Trigger.__init__`, in source order. -/
def trigger_queries : List (String × String) :=
  [("HF_Reject", "HFReject"),
   ("Hold-off", "HOLDoff"),
   ("Hold-off Maximum", "HOLDoff:MAXimum"),
   ("Hold-off Minimum", "HOLDoff:MINimum"),
   ("Hold-off Random", "HOLDoff:RANDom"),
   ("Mode", "MODE"),
   ("Noise reject", "NREJect"),
   ("Sweep", "SWEep"),
   ("Edge:Coupling", "EDGE:COUPling"),
   ("Edge:Reject", "EDGE:REJect"),
   ("Edge:Level", "EDGE:LEVel"),
   ("Edge:Slope", "EDGE:SLOPe"),
   ("Edge:Source", "EDGE:SOURce")]

/-- The trigger allowed-commands table of `Trigger.__init__`. -/
def trig_cmds_allwd : List (String × List String) :=
  [("mode", ["EDGE", "GLITch", "PATTern", "TV", "EBURst",
             "OR", "RUNT", "SHOLd", "TRANsition", "SBUS"]),
   ("force", []),
   ("edge:source", ["channel1", "channel2", "channel3", "channel4",
                    "external", "line", "wgen", "wgen1", "wgen2", "wmod"]),
   ("edge:level", []),
   ("edge:coupling", ["dc", "ac", "lfreject"]),
   ("edge:slope", ["positive", "negative", "either", "alternate"]),
   ("edge:reject", ["off", "lfreject", "hfreject"])]

/-- The channel query table of `Channel.__init__`, in source order
(including the source misspellings such as `Impedance` and `PROBE:MMODel`). -/
def channel_queries : List (String × String) :=
  [("Bandwidth Limit", "BWLimit"),
   ("Coupling", "COUPling"),
   ("Display", "DISPlay"),
   ("Impedance", "Impedance"),
   ("Invert", "INVert"),
   ("Label", "LABel"),
   ("Offset", "OFFSet"),
   ("Probe", "PROBe"),
   ("Probe:Button", "PROBe:BTN"),
   ("Probe:External", "PROBe:EXTernal"),
   ("Probe:External:Gain", "PROBe:EXTernal:GAIN"),
   ("Probe:External:Units", "PROBe:EXTernal:UNITs"),
   ("Probe:ID", "PROBe:ID"),
   ("Probe:Model", "PROBE:MMODel"),
   ("Probe:R-Sense", "PROBE:RSENse"),
   ("Probe:Skew", "PROBe:SKEW"),
   ("Probe:SigType", "PROBe:STYPe"),
   ("Probe:Zoom", "PROBe:ZOOM"),
   ("Protection", "PROTection"),
   ("Range", "RANGe"),
   ("Scale", "SCALe"),
   ("Units", "UNITs"),
   ("Vernier", "VERNier")]

/-- The channel allowed-commands table of `Channel.__init__`. -/
def chan_cmds_allwd : List (String × List String) :=
  [("scale", []),
   ("offset", []),
   ("coupling", ["AC", "DC"])]

/-- The timebase query table of `Timescale.__init__`, in source order. -/
def tb_queries : List (String × String) :=
  [("Mode", "MODE"),
   ("Position", "POSition"),
   ("Range", "RANGe"),
   ("Ref Clock", "REFClock"),
   ("Reference", "REFerence"),
   ("Reference:Location", "REFerence:LOCation"),
   ("Scale", "SCALe"),
   ("Vernier", "VERNier"),
   ("Window:Position", "WINDow:POSition"),
   ("Window:Range", "WINDow:RANGe"),
   ("Window:Scale", "WINDow:SCALe")]

/-- The timebase allowed-commands table of `Timescale.__init__`. -/
def tb_cmds_allwd : List (String × List String) :=
  [("scale", []),
   ("position", []),
   ("reference", ["left", "right", "center", "custom"]),
   ("reference:location", [])]

/-- The waveform query table of `Waveform.__init__`, in source order
(the commented-out segmented entries are absent). -/
def wf_queries : List (String × String) :=
  [("Byteorder", "BYTeorder"),
   ("Count", "COUNt"),
   ("Format", "FORMat"),
   ("Points", "POINts"),
   ("Points:Mode", "POINts:MODE"),
   ("Preamble", "PREamble"),
   ("Source", "SOURce"),
   ("Subsource", "SOURce:SUBSource"),
   ("Type", "TYPE"),
   ("Unsigned", "UNSigned"),
   ("View", "VIEW"),
   ("XIncrement", "XINCrement"),
   ("XOrigin", "XORigin"),
   ("XReference", "XREFerence"),
   ("YIncrement", "YINCrement"),
   ("YOrigin", "YORigin"),
   ("YReference", "YREFerence")]

/-- The waveform allowed-commands table of `Waveform.__init__`, the
comprehensions expanded. -/
def wf_cmds_allwd : List (String × List String) :=
  [("points:mode", ["normal", "max", "raw"]),
   ("points", []),
   ("source", ["channel1", "channel2", "channel3", "channel4",
               "function1", "function2", "function3", "function4",
               "math1", "math2", "math3", "math4",
               "WMEMory1", "WMEMory2", "WMEMory3", "WMEMory4"]),
   ("format", ["word", "byte", "ascii"])]

/-- Embedding of `Trigger.set_source`: reads the current mode from the
cached state dict (a missing key is a Python `KeyError`) and routes the
write to the mode-qualified compound key. -/
def Trigger.set_source (st : Setting) (chan : String) : OpRes Setting :=
  match st.state.lookup ("Mode") with
  | none => (Except.error (ScopeError.keyError ("Mode")), [])
  | some which => Setting._set st (which ++ ":source") chan false

/-- Embedding of `Trigger.set_level`: like `set_source` but for the level
field; the numeric level is embedded as its rendered text. -/
def Trigger.set_level (st : Setting) (level : String) : OpRes Setting :=
  match st.state.lookup ("Mode") with
  | none => (Except.error (ScopeError.keyError ("Mode")), [])
  | some which => Setting._set st (which ++ ":level") level false

/-- Embedding of `Trigger.set_mode`: only edge triggering is supported. -/
def Trigger.set_mode (st : Setting) (mode : String) : OpRes Setting :=
  if pyLower mode ≠ "edge" then
    (Except.error (ScopeError.unsupportedMode mode), [])
  else
    Setting._set st ("mode") mode false

/-- Embedding of `Trigger.set_slope`. -/
def Trigger.set_slope (st : Setting) (slope : String) : OpRes Setting :=
  match st.state.lookup ("Mode") with
  | none => (Except.error (ScopeError.keyError ("Mode")), [])
  | some which => Setting._set st (which ++ ":slope") slope false

/-- Embedding of `Trigger.force`. -/
def Trigger.force (st : Setting) : OpRes Setting :=
  Setting._set st ("force") ("") false

/-- Embedding of `Channel.set_scale`. -/
def Channel.set_scale (st : Setting) (scale : String) : OpRes Setting :=
  Setting._set st ("scale") scale false

/-- Embedding of `Channel.set_offset`. -/
def Channel.set_offset (st : Setting) (offset : String) : OpRes Setting :=
  Setting._set st ("offset") offset false

/-- Embedding of `Timescale.set_reference`.  The source of the custom
branch is `self_set(("reference:location", loc))`: the identifier
`self_set` is not defined anywhere, so reaching that branch raises a
Python `NameError` before any instrument I/O.  The other branch writes the
mode to the `reference` field. -/
def Timescale.set_reference (st : Setting) (reference : String) (_loc : String) :
    OpRes Setting :=
  if pyLower reference == "custom" then
    (Except.error (ScopeError.nameError ("self_set")), [])
  else
    Setting._set st ("reference") reference false

/-- Embedding of `Timescale.set_scale`. -/
def Timescale.set_scale (st : Setting) (scale : String) : OpRes Setting :=
  Setting._set st ("scale") scale false

/-- Embedding of `Waveform.default_setup`: the four writes pinning the
capture baseline. -/
def Waveform.default_setup (st : Setting) : OpRes Setting :=
  stepBind (Setting._set st ("points:mode") ("raw") false) (fun st1 =>
    stepBind (Setting._set st1 ("points") ("10240") false) (fun st2 =>
      stepBind (Setting._set st2 ("source") ("channel1") false) (fun st3 =>
        Setting._set st3 ("format") ("byte") false)))

/-- Embedding of `Waveform.__init__` with `default=True`: the generic
`Setting` construction followed by `default_setup`. -/
def Waveform.init (sc : Scope) (loud : Bool) : OpRes Setting :=
  stepBind (Setting.init sc ("WAVeform") wf_queries wf_cmds_allwd loud)
    Waveform.default_setup

/-- Embedding of the `KeysightControl` aggregate.  The `channels` list of
the source is the list of the four channel facades in order. -/
structure KeysightControl where
  loud : Bool
  scope : Scope
  trigger : Setting
  channel_ids : List String
  channel1 : Setting
  channel2 : Setting
  channel3 : Setting
  channel4 : Setting
  timebase : Setting
  waveform : Setting

/-- The `channels` attribute of the controller. -/
def KeysightControl.channels (kc : KeysightControl) : List Setting :=
  [kc.channel1, kc.channel2, kc.channel3, kc.channel4]

/-- Embedding of `KeysightControl.__init__` given an already-opened scope
(resource discovery is the out-of-scope Session collaborator): constructs
the trigger, the four channels, the timebase and the waveform facades in
source order, each construction performing its eager refresh. -/
def KeysightControl.init (sc : Scope) (loud : Bool) : OpRes KeysightControl :=
  stepBind (Setting.init sc ("TRIGger") trigger_queries trig_cmds_allwd loud) (fun trig =>
    stepBind (Setting.init sc ("CHANnel1") channel_queries chan_cmds_allwd loud) (fun c1 =>
      stepBind (Setting.init sc ("CHANnel2") channel_queries chan_cmds_allwd loud) (fun c2 =>
        stepBind (Setting.init sc ("CHANnel3") channel_queries chan_cmds_allwd loud) (fun c3 =>
          stepBind (Setting.init sc ("CHANnel4") channel_queries chan_cmds_allwd loud) (fun c4 =>
            stepBind (Setting.init sc ("TIMebase") tb_queries tb_cmds_allwd loud) (fun tb =>
              stepBind (Waveform.init sc loud) (fun wf =>
                (Except.ok
                  { loud := loud
                    scope := sc
                    trigger := trig
                    channel_ids := ["channel1", "channel2", "channel3", "channel4"]
                    channel1 := c1
                    channel2 := c2
                    channel3 := c3
                    channel4 := c4
                    timebase := tb
                    waveform := wf }, []))))))))

/-- Embedding of `KeysightControl.setup_capture`: validates the source
against the channel identifier list before any I/O, then issues the four
baseline writes with the literal command texts of the source. -/
def KeysightControl.setup_capture (kc : KeysightControl) (source : String) :
    OpRes Unit :=
  if !(kc.channel_ids.contains source) then
    (Except.error (ScopeError.invalidChannel source), [])
  else
    stepBind (Scope.command kc.scope (":WAVeform:POINts:MODE RAW")) (fun _ =>
      stepBind (Scope.command kc.scope (":WAVEform:POINTs 10240")) (fun _ =>
        stepBind (Scope.command kc.scope (":WAVeform:SOURce " ++ source)) (fun _ =>
          Scope.command kc.scope (":WAVeform:FORMat BYTE"))))

/-- Embedding of `KeysightControl.capture_waveform`: no validation of the
source argument; the waveform-source write, the points write, one binary
query for the payload (a raw `query_binary_values` on the session followed
by an explicit error check), and the decode of each payload byte to a
numeric sample value. -/
def KeysightControl.capture_waveform (kc : KeysightControl) (source : String) :
    OpRes (List ℚ) :=
  stepBind (Scope.command kc.scope (":WAVeform:SOURce " ++ source)) (fun _ =>
    stepBind (Scope.command kc.scope (":WAVEform:POINTs 10240")) (fun _ =>
      let data := kc.scope.binDev (":WAVeform:DATA?")
      let chk := kc.scope.check_instrument_errors (":WAVeform:DATA?")
      (chk.1.map (fun _ => data.map (fun d => (d : ℚ))),
        Event.binQuery (":WAVeform:DATA?") :: chk.2)))

/-- Embedding of `KeysightControl.set_loud`.  The source sets `self.loud`,
then executes `self.trigger.loud = loud`, which enters the `loud` property
setter that `Trigger` overrides; that setter's body is
`super().loud = loud`, and assigning an attribute through a `super()`
proxy raises `AttributeError` (super object has no attribute `loud`)
before the trigger flag changes.  The method therefore aborts right
there: the trigger flag stays unchanged and the following
`self.channels.values()` line (itself also broken, since `channels` is a
list) is never reached.  Only the controller's own flag has been mutated
when the error propagates. -/
def KeysightControl.set_loud (kc : KeysightControl) (loud : Bool) :
    KeysightControl × Option ScopeError :=
  ({ kc with loud := loud }, some (ScopeError.attributeError ("loud")))

/-- Embedding of `KeysightControl.autoscale`. -/
def KeysightControl.autoscale (kc : KeysightControl) : OpRes Unit :=
  Scope.command kc.scope (":AUToscale")

/-- The session trace of one full refresh: for each table entry, in table
order, the `:name:suffix?` query followed by its mandatory error-queue
query. -/
def refreshTrace (name : String) : List (String × String) → List Event
  | [] => []
  | p :: rest =>
    Event.queryE (qcmd name p.2 ++ "?") :: Event.queryE (":SYSTem:ERRor?") ::
      refreshTrace name rest

/-- The state mapping a full refresh builds: every display name bound to
the trimmed response of its query. -/
def refreshedState (sc : Scope) (name : String) (qs : List (String × String)) :
    List (String × String) :=
  qs.map (fun p => (p.1, pyStrip (pyStrip (sc.dev (qcmd name p.2 ++ "?")))))

/-- The `Setting` value a successful eager construction produces: tables
stored, freshness flag true, state fully populated. -/
def freshSetting (sc : Scope) (cmd_name : String) (queries : List (String × String))
    (alwd_cmds : List (String × List String)) (loud : Bool) : Setting :=
  { scope := sc
    cmd_name := cmd_name
    cmd_short := String.mk (cmd_name.toList.filter Char.isUpper)
    queries := queries
    alwd_cmds := alwd_cmds
    loud := loud
    state_in_date := true
    state := refreshedState sc cmd_name queries }

/-- The session trace of the four `Waveform.default_setup` writes under a
healthy error queue. -/
def wfDefaultTrace : List Event :=
  [Event.write (":WAVeform:POINts:MODE raw"), Event.queryE (":SYSTem:ERRor?"),
   Event.write (":WAVeform:POINts 10240"), Event.queryE (":SYSTem:ERRor?"),
   Event.write (":WAVeform:SOURce channel1"), Event.queryE (":SYSTem:ERRor?"),
   Event.write (":WAVeform:FORMat byte"), Event.queryE (":SYSTem:ERRor?")]

/-- A simulated healthy instrument: every textual query (in particular
`:SYSTem:ERRor?`) answers with the no-error sentinel, the binary query
returns two payload bytes. -/
def goodScope : Scope :=
  { dev := fun _ => "+0,\"No error\""
    binDev := fun _ => [65, 66]
    loud := false }

/-- A simulated faulty instrument whose error queue reports a queue
overflow. -/
def badScope : Scope :=
  { dev := fun _ => "-350,\"Queue overflow\""
    binDev := fun _ => []
    loud := false }

/-- A simulated broken link whose error queue returns an empty response. -/
def silentScope : Scope :=
  { dev := fun _ => ""
    binDev := fun _ => []
    loud := false }

/-- A concrete trigger facade over the healthy instrument whose cached
state holds edge mode. -/
def trigSt : Setting :=
  { scope := goodScope
    cmd_name := "TRIGger"
    cmd_short := "TRIG"
    queries := trigger_queries
    alwd_cmds := trig_cmds_allwd
    loud := false
    state_in_date := true
    state := [("Mode", "EDGE")] }

/-- A concrete timebase facade over the healthy instrument. -/
def tbSt : Setting :=
  { scope := goodScope
    cmd_name := "TIMebase"
    cmd_short := "TIM"
    queries := tb_queries
    alwd_cmds := tb_cmds_allwd
    loud := false
    state_in_date := true
    state := [] }

/-- A concrete channel facade over the healthy instrument. -/
def chSt (i : Nat) : Setting :=
  { scope := goodScope
    cmd_name := "CHANnel" ++ toString i
    cmd_short := "CHAN"
    queries := channel_queries
    alwd_cmds := chan_cmds_allwd
    loud := false
    state_in_date := true
    state := [] }

/-- A concrete waveform facade over the healthy instrument. -/
def wfSt : Setting :=
  { scope := goodScope
    cmd_name := "WAVeform"
    cmd_short := "WAV"
    queries := wf_queries
    alwd_cmds := wf_cmds_allwd
    loud := false
    state_in_date := true
    state := [] }

/-- A concrete controller over the healthy instrument, with every
verbosity flag false. -/
def demoKC : KeysightControl :=
  { loud := false
    scope := goodScope
    trigger := trigSt
    channel_ids := ["channel1", "channel2", "channel3", "channel4"]
    channel1 := chSt 1
    channel2 := chSt 2
    channel3 := chSt 3
    channel4 := chSt 4
    timebase := tbSt
    waveform := wfSt }

/-- The timebase fixture with its cache marked stale. -/
def staleTbSt : Setting := { tbSt with state_in_date := false }

/-- The timebase fixture after a full refresh against the healthy
instrument. -/
def freshTbSt : Setting :=
  { tbSt with
      state := refreshedState goodScope ("TIMebase") tb_queries
      state_in_date := true }

/-- The controller a successful `KeysightControl.init` builds: every
facade freshly refreshed, the waveform facade left stale by the
default-setup writes. -/
def controllerOf (sc : Scope) (loud : Bool) : KeysightControl :=
  { loud := loud
    scope := sc
    trigger := freshSetting sc ("TRIGger") trigger_queries trig_cmds_allwd loud
    channel_ids := ["channel1", "channel2", "channel3", "channel4"]
    channel1 := freshSetting sc ("CHANnel1") channel_queries chan_cmds_allwd loud
    channel2 := freshSetting sc ("CHANnel2") channel_queries chan_cmds_allwd loud
    channel3 := freshSetting sc ("CHANnel3") channel_queries chan_cmds_allwd loud
    channel4 := freshSetting sc ("CHANnel4") channel_queries chan_cmds_allwd loud
    timebase := freshSetting sc ("TIMebase") tb_queries tb_cmds_allwd loud
    waveform :=
      { freshSetting sc ("WAVeform") wf_queries wf_cmds_allwd loud with
          state_in_date := false } }

/-- The full construction trace of the controller under a healthy error
queue: one full refresh per facade, in construction order, then the four
default-setup writes of the waveform facade. -/
def controllerTrace : List Event :=
  refreshTrace ("TRIGger") trigger_queries ++
    (refreshTrace ("CHANnel1") channel_queries ++
      (refreshTrace ("CHANnel2") channel_queries ++
        (refreshTrace ("CHANnel3") channel_queries ++
          (refreshTrace ("CHANnel4") channel_queries ++
            (refreshTrace ("TIMebase") tb_queries ++
              (refreshTrace ("WAVeform") wf_queries ++ wfDefaultTrace))))))

/-- Well-formedness of an allowed-commands table as the source tables all
satisfy it: every key is already lower-case and no allow-set is a
singleton (so the `len > 1` membership guard of `_set` fires exactly for
the non-empty allow-sets). -/
def tableOk (t : List (String × List String)) : Bool :=
  t.all (fun kv => (pyLower kv.1 == kv.1) && (kv.2.length != 1))

lemma sentinel_ne_empty {s : String} (h : s.take 3 = "+0,") : s ≠ "" := by
  intro he
  rw [he] at h
  exact absurd h (by decide)

lemma check_ok (sc : Scope) (command : String)
    (h : (sc.dev (":SYSTem:ERRor?")).take 3 = "+0,") :
    sc.check_instrument_errors command =
      (Except.ok (), [Event.queryE (":SYSTem:ERRor?")]) := by
  have hne : sc.dev (":SYSTem:ERRor?") ≠ "" := sentinel_ne_empty h
  simp [Scope.check_instrument_errors, hne, h]

lemma command_ok (sc : Scope) (c : String)
    (h : (sc.dev (":SYSTem:ERRor?")).take 3 = "+0,") :
    Scope.command sc c =
      (Except.ok (), [Event.write c, Event.queryE (":SYSTem:ERRor?")]) := by
  simp [Scope.command, check_ok sc c h]

lemma query_ok (sc : Scope) (q : String)
    (h : (sc.dev (":SYSTem:ERRor?")).take 3 = "+0,") :
    Scope.query sc q =
      (Except.ok (pyStrip (sc.dev (q ++ "?"))),
        [Event.queryE (q ++ "?"), Event.queryE (":SYSTem:ERRor?")]) := by
  simp [Scope.query, check_ok sc (q ++ "?") h, Except.map]

lemma runQueries_ok (sc : Scope) (name : String)
    (h : (sc.dev (":SYSTem:ERRor?")).take 3 = "+0,") :
    ∀ qs : List (String × String),
      runQueries sc name qs =
        (Except.ok (refreshedState sc name qs), refreshTrace name qs)
  | [] => by simp [runQueries, refreshedState, refreshTrace]
  | p :: rest => by
    simp [runQueries, query_ok sc (qcmd name p.2) h,
      runQueries_ok sc name h rest, refreshedState, refreshTrace]

lemma refresh_fresh (st : Setting) (h : st.state_in_date = true) :
    st.refresh_state = (Except.ok (st, st.state), []) := by
  simp [Setting.refresh_state, h]

lemma refresh_stale (st : Setting) (h : st.state_in_date = false)
    (hdev : (st.scope.dev (":SYSTem:ERRor?")).take 3 = "+0,") :
    st.refresh_state =
      (Except.ok
        ({ st with
            state := refreshedState st.scope st.cmd_name st.queries
            state_in_date := true },
          refreshedState st.scope st.cmd_name st.queries),
        refreshTrace st.cmd_name st.queries) := by
  simp [Setting.refresh_state, h, runQueries_ok st.scope st.cmd_name hdev st.queries]

lemma init_ok (sc : Scope) (name : String) (queries : List (String × String))
    (alwd : List (String × List String)) (loud : Bool)
    (hdev : (sc.dev (":SYSTem:ERRor?")).take 3 = "+0,") :
    Setting.init sc name queries alwd loud =
      (Except.ok (freshSetting sc name queries alwd loud), refreshTrace name queries) := by
  simp only [Setting.init, stepBind, Setting.refresh_state]
  simp [runQueries_ok sc name hdev queries, freshSetting]

lemma lookup_mem {α β : Type} [BEq α] [LawfulBEq α] {l : List (α × β)} {k : α} {v : β}
    (h : l.lookup k = some v) : (k, v) ∈ l := by
  induction l with
  | nil => simp [List.lookup] at h
  | cons p rest ih =>
    rw [List.lookup] at h
    by_cases hk : (k == p.1) = true
    · rw [hk] at h
      simp only [Option.some.injEq] at h
      have hkp : k = p.1 := eq_of_beq hk
      have hp : (k, v) = p := by
        obtain ⟨p1, p2⟩ := p
        simp only at hkp h
        rw [hkp, h]
      rw [hp]
      exact List.mem_cons_self _ _
    · rw [Bool.not_eq_true] at hk
      rw [hk] at h
      exact List.mem_cons_of_mem _ (ih h)

lemma tables_ok :
    tableOk trig_cmds_allwd = true ∧ tableOk chan_cmds_allwd = true ∧
      tableOk tb_cmds_allwd = true ∧ tableOk wf_cmds_allwd = true := by
  decide

lemma set_ok_of (st : Setting) (s val : String) (aS : List String) (sfx : String)
    (ha : List.lookup (pyLower s) st.alwd_cmds = some aS)
    (hcond : (decide (aS.length > 1) && !(aS.contains val)) = false)
    (hq : List.lookup (pyLower s) st.queries_lowers = some sfx)
    (hdev : (st.scope.dev (":SYSTem:ERRor?")).take 3 = "+0,") :
    Setting._set st s val false =
      (Except.ok ({ st with state_in_date := false }),
        [Event.write (qcmd st.cmd_name sfx ++ " " ++ val),
          Event.queryE (":SYSTem:ERRor?")]) := by
  simp only [Setting._set, ha, hcond, Bool.false_eq_true, if_false, hq,
    command_ok st.scope _ hdev, stepBind, List.append_nil]

lemma wf_default_ok (st : Setting) (hn : st.cmd_name = "WAVeform")
    (hq : st.queries = wf_queries) (ha : st.alwd_cmds = wf_cmds_allwd)
    (hdev : (st.scope.dev (":SYSTem:ERRor?")).take 3 = "+0,") :
    Waveform.default_setup st =
      (Except.ok ({ st with state_in_date := false }), wfDefaultTrace) := by
  obtain ⟨sc, cn, cs, q, a, l, sid, stt⟩ := st
  dsimp only at hn hq ha hdev
  subst hn
  subst hq
  subst ha
  unfold Waveform.default_setup
  rw [set_ok_of (Setting.mk sc ("WAVeform") cs wf_queries wf_cmds_allwd l sid stt)
    ("points:mode") ("raw") (["normal", "max", "raw"]) ("POINts:MODE")
    (by dsimp only; decide) (by decide)
    (by dsimp only [Setting.queries_lowers]; decide) hdev]
  dsimp only [stepBind]
  rw [set_ok_of (Setting.mk sc ("WAVeform") cs wf_queries wf_cmds_allwd l false stt)
    ("points") ("10240") ([]) ("POINts")
    (by dsimp only; decide) (by decide)
    (by dsimp only [Setting.queries_lowers]; decide) hdev]
  dsimp only [stepBind]
  rw [set_ok_of (Setting.mk sc ("WAVeform") cs wf_queries wf_cmds_allwd l false stt)
    ("source") ("channel1")
    (["channel1", "channel2", "channel3", "channel4",
      "function1", "function2", "function3", "function4",
      "math1", "math2", "math3", "math4",
      "WMEMory1", "WMEMory2", "WMEMory3", "WMEMory4"]) ("SOURce")
    (by dsimp only; decide) (by decide)
    (by dsimp only [Setting.queries_lowers]; decide) hdev]
  dsimp only [stepBind]
  rw [set_ok_of (Setting.mk sc ("WAVeform") cs wf_queries wf_cmds_allwd l false stt)
    ("format") ("byte") (["word", "byte", "ascii"]) ("FORMat")
    (by dsimp only; decide) (by decide)
    (by dsimp only [Setting.queries_lowers]; decide) hdev]
  rfl

lemma waveform_init_ok (sc : Scope) (loud : Bool)
    (hdev : (sc.dev (":SYSTem:ERRor?")).take 3 = "+0,") :
    Waveform.init sc loud =
      (Except.ok ({ freshSetting sc ("WAVeform") wf_queries wf_cmds_allwd loud with
          state_in_date := false }),
        refreshTrace ("WAVeform") wf_queries ++ wfDefaultTrace) := by
  unfold Waveform.init
  rw [init_ok sc ("WAVeform") wf_queries wf_cmds_allwd loud hdev]
  dsimp only [stepBind]
  rw [wf_default_ok (freshSetting sc ("WAVeform") wf_queries wf_cmds_allwd loud)
    rfl rfl rfl hdev]

lemma controller_init_ok (sc : Scope) (loud : Bool)
    (hdev : (sc.dev (":SYSTem:ERRor?")).take 3 = "+0,") :
    KeysightControl.init sc loud =
      (Except.ok (controllerOf sc loud), controllerTrace) := by
  unfold KeysightControl.init
  rw [init_ok sc ("TRIGger") trigger_queries trig_cmds_allwd loud hdev]
  dsimp only [stepBind]
  rw [init_ok sc ("CHANnel1") channel_queries chan_cmds_allwd loud hdev]
  dsimp only [stepBind]
  rw [init_ok sc ("CHANnel2") channel_queries chan_cmds_allwd loud hdev]
  dsimp only [stepBind]
  rw [init_ok sc ("CHANnel3") channel_queries chan_cmds_allwd loud hdev]
  dsimp only [stepBind]
  rw [init_ok sc ("CHANnel4") channel_queries chan_cmds_allwd loud hdev]
  dsimp only [stepBind]
  rw [init_ok sc ("TIMebase") tb_queries tb_cmds_allwd loud hdev]
  dsimp only [stepBind]
  rw [waveform_init_ok sc loud hdev]
  dsimp only [stepBind]
  simp [controllerOf, controllerTrace]

lemma set_ok_shape (st : Setting) (s val : String) (st1 : Setting) (ev : List Event)
    (h : Setting._set st s val false = (Except.ok st1, ev)) :
    st1 = { st with state_in_date := false } := by
  simp only [Setting._set, Bool.false_eq_true, if_false] at h
  split at h
  · simp at h
  · split at h
    · simp at h
    · split at h
      · simp at h
      · unfold stepBind at h
        split at h
        · simp at h
          exact h.1.symm
        · simp at h

/-- C1: for every Setting namespace of the program (each instantiated
namespace carries one of the four subsystem allow-list tables), every
writable field key present in the table with a non-empty allow-set, and
every value not a member of that allow-set, `_set` raises the
invalid-value error and transmits nothing (empty event trace): validation
happens strictly before transmission. -/
theorem C1_validation_precedes_io (st : Setting) (key val : String)
    (aS : List String) (r : Bool)
    (htab : st.alwd_cmds = trig_cmds_allwd ∨ st.alwd_cmds = chan_cmds_allwd ∨
      st.alwd_cmds = tb_cmds_allwd ∨ st.alwd_cmds = wf_cmds_allwd)
    (hk : st.alwd_cmds.lookup key = some aS)
    (hne : aS ≠ [])
    (hval : aS.contains val = false) :
    Setting._set st key val r =
      (Except.error (ScopeError.invalidValue val), []) := by
  have htok : tableOk st.alwd_cmds = true := by
    rcases htab with h | h | h | h <;> rw [h]
    · exact tables_ok.1
    · exact tables_ok.2.1
    · exact tables_ok.2.2.1
    · exact tables_ok.2.2.2
  have hmem : (key, aS) ∈ st.alwd_cmds := lookup_mem hk
  rw [tableOk, List.all_eq_true] at htok
  have h2 := htok _ hmem
  simp only [Bool.and_eq_true, beq_iff_eq, bne_iff_ne, ne_eq] at h2
  obtain ⟨hlow, hlen⟩ := h2
  have hpos : 0 < aS.length := List.length_pos.mpr hne
  have hlen1 : 1 < aS.length := Nat.lt_of_le_of_ne hpos (fun he => hlen he.symm)
  simp only [Setting._set, hlow, hk, hlen1, hval]
  simp

/-- C1 witness: the trigger namespace rejects the value channel5 for the
field edge:source without any instrument I/O. -/
theorem C1_validation_precedes_io_witness :
    Setting._set trigSt ("edge:source") ("channel5") false =
      (Except.error (ScopeError.invalidValue ("channel5")), []) :=
  C1_validation_precedes_io trigSt ("edge:source") ("channel5")
    (["channel1", "channel2", "channel3", "channel4",
      "external", "line", "wgen", "wgen1", "wgen2", "wmod"]) false
    (Or.inl rfl) (by decide) (by decide) (by decide)

/-- C2 counterexample: `capture_waveform` called with channel5 (not one of
channel1..channel4) does not fail with an invalid-channel error and does
not perform zero instrument I/O — it succeeds, transmitting the source and
points writes and one binary query, because `capture_waveform` performs no
channel validation (only `setup_capture` does). -/
theorem C2_capture_counterexample :
    (KeysightControl.capture_waveform demoKC ("channel5")).1 =
      Except.ok [(65 : ℚ), 66] ∧
    (KeysightControl.capture_waveform demoKC ("channel5")).2 =
      [Event.write (":WAVeform:SOURce channel5"), Event.queryE (":SYSTem:ERRor?"),
       Event.write (":WAVEform:POINTs 10240"), Event.queryE (":SYSTem:ERRor?"),
       Event.binQuery (":WAVeform:DATA?"), Event.queryE (":SYSTem:ERRor?")] ∧
    (KeysightControl.capture_waveform demoKC ("channel5")).2 ≠ [] :=
  ⟨rfl, rfl, by decide⟩

/-- C2 amended: channel validation lives in `setup_capture`, which rejects
a source outside the channel identifiers with the invalid-channel error
and zero instrument I/O; `capture_waveform` itself performs no validation:
for every source it issues the waveform-source write and the points-count
write, performs exactly one binary query for the payload, and returns the
payload decoded as a sequence of numeric sample values. -/
theorem C2_capture_and_validation (kc : KeysightControl) (source : String)
    (hdev : (kc.scope.dev (":SYSTem:ERRor?")).take 3 = "+0,") :
    KeysightControl.capture_waveform kc source =
      (Except.ok ((kc.scope.binDev (":WAVeform:DATA?")).map (fun d => (d : ℚ))),
        [Event.write (":WAVeform:SOURce " ++ source), Event.queryE (":SYSTem:ERRor?"),
         Event.write (":WAVEform:POINTs 10240"), Event.queryE (":SYSTem:ERRor?"),
         Event.binQuery (":WAVeform:DATA?"), Event.queryE (":SYSTem:ERRor?")]) ∧
    (∀ src : String, kc.channel_ids.contains src = false →
      KeysightControl.setup_capture kc src =
        (Except.error (ScopeError.invalidChannel src), [])) := by
  constructor
  · simp only [KeysightControl.capture_waveform, stepBind,
      command_ok kc.scope _ hdev, check_ok kc.scope _ hdev, Except.map]
    simp
  · intro src h
    simp only [KeysightControl.setup_capture, h]
    simp

/-- C2 amended witness: at the demo controller, channel5 is rejected by
`setup_capture` with zero instrument I/O. -/
theorem C2_capture_and_validation_witness :
    KeysightControl.setup_capture demoKC ("channel5") =
      (Except.error (ScopeError.invalidChannel ("channel5")), []) :=
  (C2_capture_and_validation demoKC ("channel1") rfl).2 ("channel5") rfl

/-- C3: after every transmitted command (and query), the error
verification behaves as specified: a system-error response beginning with
the no-error sentinel lets the operation succeed; any other response makes
it fail with an instrument fault carrying the offending command text and
the device error string; an empty response makes it fail with the distinct
major-system error; and in every case exactly one error-register query is
issued (no retry). -/
theorem C3_error_queue_gating (sc : Scope) (cmd q : String) :
    ((sc.dev (":SYSTem:ERRor?")).take 3 = "+0," →
      Scope.command sc cmd =
        (Except.ok (), [Event.write cmd, Event.queryE (":SYSTem:ERRor?")]) ∧
      Scope.query sc q =
        (Except.ok (pyStrip (sc.dev (q ++ "?"))),
          [Event.queryE (q ++ "?"), Event.queryE (":SYSTem:ERRor?")])) ∧
    (sc.dev (":SYSTem:ERRor?") ≠ "" →
      (sc.dev (":SYSTem:ERRor?")).take 3 ≠ "+0," →
      (Scope.command sc cmd).1 =
        Except.error (ScopeError.instrumentFault cmd (sc.dev (":SYSTem:ERRor?"))) ∧
      (Scope.query sc q).1 =
        Except.error
          (ScopeError.instrumentFault (q ++ "?") (sc.dev (":SYSTem:ERRor?")))) ∧
    (sc.dev (":SYSTem:ERRor?") = "" →
      (Scope.command sc cmd).1 = Except.error (ScopeError.majorSystemError cmd)) ∧
    (Scope.command sc cmd).2 = [Event.write cmd, Event.queryE (":SYSTem:ERRor?")] ∧
    (∀ c1 e1 c2 : String,
      ScopeError.instrumentFault c1 e1 ≠ ScopeError.majorSystemError c2) := by
  refine ⟨fun h => ⟨command_ok sc cmd h, query_ok sc q h⟩, fun hne hbad => ?_,
    fun hemp => ?_, ?_, fun c1 e1 c2 => by simp⟩
  · constructor
    · simp [Scope.command, Scope.check_instrument_errors, hne, hbad]
    · simp [Scope.query, Scope.check_instrument_errors, hne, hbad, Except.map]
  · simp [Scope.command, Scope.check_instrument_errors, hemp]
  · by_cases hne : sc.dev (":SYSTem:ERRor?") = ""
    · simp [Scope.command, Scope.check_instrument_errors, hne]
    · by_cases hbad : (sc.dev (":SYSTem:ERRor?")).take 3 = "+0,"
      · simp [Scope.command, Scope.check_instrument_errors, hne, hbad]
      · simp [Scope.command, Scope.check_instrument_errors, hne, hbad]

/-- C3 witness: the three simulated instruments exercise each branch —
the healthy one succeeds, the faulty one produces the instrument fault
carrying the original command and the device error text, the silent one
produces the major-system error. -/
theorem C3_error_queue_gating_witness :
    Scope.command goodScope (":AUToscale") =
      (Except.ok (), [Event.write (":AUToscale"), Event.queryE (":SYSTem:ERRor?")]) ∧
    (Scope.command badScope (":AUToscale")).1 =
      Except.error
        (ScopeError.instrumentFault (":AUToscale") ("-350,\"Queue overflow\"")) ∧
    (Scope.command silentScope (":AUToscale")).1 =
      Except.error (ScopeError.majorSystemError (":AUToscale")) :=
  ⟨((C3_error_queue_gating goodScope (":AUToscale") ("x")).1 rfl).1,
   ((C3_error_queue_gating badScope (":AUToscale") ("x")).2.1 (by decide) (by decide)).1,
   (C3_error_queue_gating silentScope (":AUToscale") ("x")).2.2.1 rfl⟩

/-- C4: for every Setting namespace with a stale cache and a healthy error
queue, calling `refresh_state` twice in a row with no intervening write
issues instrument I/O only on the first call — one query per Command Table
entry, in the declared table order (the `refreshTrace`) — while the second
call performs zero queries and returns the cached mapping unchanged. -/
theorem C4_cache_coherence (st : Setting)
    (hstale : st.state_in_date = false)
    (hdev : (st.scope.dev (":SYSTem:ERRor?")).take 3 = "+0,") :
    ∃ st1 : Setting, ∃ m : List (String × String),
      st.refresh_state = (Except.ok (st1, m), refreshTrace st.cmd_name st.queries) ∧
      st1.refresh_state = (Except.ok (st1, m), []) ∧
      st1.state = m := by
  refine ⟨{ st with state := refreshedState st.scope st.cmd_name st.queries
                    state_in_date := true },
    refreshedState st.scope st.cmd_name st.queries,
    refresh_stale st hstale hdev, ?_, rfl⟩
  exact refresh_fresh _ rfl

/-- C4 witness: the stale timebase fixture refreshes once over its
11-entry table and then serves the cache. -/
theorem C4_cache_coherence_witness :
    ∃ st1 : Setting, ∃ m : List (String × String),
      staleTbSt.refresh_state =
        (Except.ok (st1, m), refreshTrace staleTbSt.cmd_name staleTbSt.queries) ∧
      st1.refresh_state = (Except.ok (st1, m), []) ∧
      st1.state = m :=
  C4_cache_coherence staleTbSt rfl rfl

/-- C5 counterexample: a successful `_set` with the refresh flag true
(part of the method surface, so one of the calls quantified over by the
claim) ends with the freshness flag true — the refresh runs inside `_set`
itself — so the very next `refresh_state` call serves the cache with zero
queries instead of issuing a full set of fresh queries. -/
theorem C5_invalidate_counterexample :
    (Setting._set tbSt ("scale") ("3.00") true).1 = Except.ok freshTbSt ∧
    freshTbSt.state_in_date = true ∧
    freshTbSt.refresh_state = (Except.ok (freshTbSt, freshTbSt.state), []) :=
  ⟨rfl, rfl, rfl⟩

/-- C5 amended: every successful `_set` with the refresh argument false
(the default in the source) leaves the freshness flag false, so the very
next `refresh_state` call issues a full set of fresh queries — one per
Command Table entry — rather than serving the cache; with the refresh
argument true the full refresh happens inside `_set` itself and the flag
ends true. -/
theorem C5_invalidate_on_write (st : Setting) (s val : String)
    (st1 : Setting) (ev : List Event)
    (hok : Setting._set st s val false = (Except.ok st1, ev))
    (hdev : (st.scope.dev (":SYSTem:ERRor?")).take 3 = "+0,") :
    st1.state_in_date = false ∧
    st1.refresh_state =
      (Except.ok
        ({ st1 with state := refreshedState st1.scope st1.cmd_name st1.queries
                    state_in_date := true },
          refreshedState st1.scope st1.cmd_name st1.queries),
        refreshTrace st1.cmd_name st1.queries) := by
  have hsh : st1 = { st with state_in_date := false } := set_ok_shape st s val st1 ev hok
  subst hsh
  exact ⟨rfl, refresh_stale _ rfl hdev⟩

/-- C5 amended witness: writing the timebase scale with refresh false
leaves the flag false and the next refresh queries the full table. -/
theorem C5_invalidate_on_write_witness :
    staleTbSt.state_in_date = false ∧
    staleTbSt.refresh_state =
      (Except.ok
        ({ staleTbSt with
            state := refreshedState staleTbSt.scope staleTbSt.cmd_name staleTbSt.queries
            state_in_date := true },
          refreshedState staleTbSt.scope staleTbSt.cmd_name staleTbSt.queries),
        refreshTrace staleTbSt.cmd_name staleTbSt.queries) :=
  C5_invalidate_on_write tbSt ("scale") ("3.00") staleTbSt
    ([Event.write (":TIMebase:SCALe 3.00"), Event.queryE (":SYSTem:ERRor?")])
    (by rfl) rfl

/-- C6: key resolution in `_set` is case-insensitive — two keys that agree
after lower-casing (for example SCALE and scale) produce identical
results, in particular an identical transmitted command. -/
theorem C6_case_insensitive_keys (st : Setting) (k1 k2 val : String) (r : Bool)
    (h : pyLower k1 = pyLower k2) :
    Setting._set st k1 val r = Setting._set st k2 val r := by
  simp only [Setting._set, h]

/-- C6 witness: SCALE and scale produce the same transmitted command on
the timebase namespace. -/
theorem C6_case_insensitive_keys_witness :
    pyLower ("SCALE") = pyLower ("scale") ∧
    Setting._set tbSt ("SCALE") ("0.0002") false =
      Setting._set tbSt ("scale") ("0.0002") false :=
  ⟨by decide,
    C6_case_insensitive_keys tbSt ("SCALE") ("scale") ("0.0002") false (by decide)⟩

/-- C7 counterexample: with trigger mode EDGE cached, `set_source` with
channel2 transmits `:TRIGger:EDGE:SOURce channel2` — spelled with the
`SOURce` suffix of the Command Table — and in particular never transmits
the all-caps `:TRIGger:EDGE:SOURCE channel2` text the claim states. -/
theorem C7_transmitted_text_counterexample :
    (Trigger.set_source trigSt ("channel2")).2 =
      [Event.write (":TRIGger:EDGE:SOURce channel2"),
        Event.queryE (":SYSTem:ERRor?")] ∧
    Event.write (":TRIGger:EDGE:SOURCE channel2") ∉
      (Trigger.set_source trigSt ("channel2")).2 :=
  ⟨rfl, by decide⟩

/-- C7 amended: when the cached trigger state has mode EDGE, `set_source`
with channel2 routes the write through the mode-qualified compound key
edge:source and transmits exactly `:TRIGger:EDGE:SOURce channel2` (the
suffix as spelled in the Command Table), clearing the freshness flag. -/
theorem C7_edge_source_routing (st : Setting)
    (hn : st.cmd_name = "TRIGger") (hq : st.queries = trigger_queries)
    (ha : st.alwd_cmds = trig_cmds_allwd)
    (hm : st.state.lookup ("Mode") = some ("EDGE"))
    (hdev : (st.scope.dev (":SYSTem:ERRor?")).take 3 = "+0,") :
    Trigger.set_source st ("channel2") =
      (Except.ok ({ st with state_in_date := false }),
        [Event.write (":TRIGger:EDGE:SOURce channel2"),
          Event.queryE (":SYSTem:ERRor?")]) := by
  obtain ⟨sc, cn, cs, q, a, l, sid, stt⟩ := st
  dsimp only at hn hq ha hm hdev
  subst hn
  subst hq
  subst ha
  unfold Trigger.set_source
  dsimp only
  rw [hm]
  dsimp only
  rw [set_ok_of (Setting.mk sc ("TRIGger") cs trigger_queries trig_cmds_allwd l sid stt)
    ("EDGE" ++ ":source") ("channel2")
    (["channel1", "channel2", "channel3", "channel4",
      "external", "line", "wgen", "wgen1", "wgen2", "wmod"]) ("EDGE:SOURce")
    (by dsimp only; decide) (by decide)
    (by dsimp only [Setting.queries_lowers]; decide) hdev]
  rfl

/-- C7 amended witness: the concrete trigger fixture with EDGE mode cached
transmits exactly the table-spelled command. -/
theorem C7_edge_source_routing_witness :
    Trigger.set_source trigSt ("channel2") =
      (Except.ok ({ trigSt with state_in_date := false }),
        [Event.write (":TRIGger:EDGE:SOURce channel2"),
          Event.queryE (":SYSTem:ERRor?")]) :=
  C7_edge_source_routing trigSt rfl rfl rfl (by decide) rfl

/-- C8: the claim matches the source docstring, but the custom branch of
`set_reference` calls the undefined identifier `self_set`, so
`set_reference` with mode custom raises a `NameError` and writes nothing —
the location value is never transmitted to the reference:location field.
The left, right and center modes do write the mode to the reference field
as claimed. -/
theorem C8_set_reference_custom_bug :
    Timescale.set_reference tbSt ("custom") ("0.5") =
      (Except.error (ScopeError.nameError ("self_set")), []) ∧
    Timescale.set_reference tbSt ("center") ("0.0") =
      (Except.ok staleTbSt,
        [Event.write (":TIMebase:REFerence center"), Event.queryE (":SYSTem:ERRor?")]) ∧
    Timescale.set_reference tbSt ("left") ("0.0") =
      (Except.ok staleTbSt,
        [Event.write (":TIMebase:REFerence left"), Event.queryE (":SYSTem:ERRor?")]) ∧
    Timescale.set_reference tbSt ("right") ("0.0") =
      (Except.ok staleTbSt,
        [Event.write (":TIMebase:REFerence right"), Event.queryE (":SYSTem:ERRor?")]) :=
  ⟨rfl, rfl, rfl, rfl⟩

/-- C9: the claim matches the intent visible in `set_loud`, but every call
raises an `AttributeError` as soon as it assigns `self.trigger.loud`: the
`loud` setter the Trigger facade overrides performs `super().loud = loud`,
which always fails on a `super()` proxy.  Only the controller's own flag
is updated; the trigger, the four channels, the timebase, the waveform
and the instrument link all keep their previous verbosity value — the
flag is not propagated uniformly. -/
theorem C9_set_loud_not_propagated :
    (KeysightControl.set_loud demoKC true).2 =
      some (ScopeError.attributeError ("loud")) ∧
    (KeysightControl.set_loud demoKC true).1.loud = true ∧
    (KeysightControl.set_loud demoKC true).1.trigger.loud = false ∧
    (KeysightControl.set_loud demoKC true).1.channel1.loud = false ∧
    (KeysightControl.set_loud demoKC true).1.channel2.loud = false ∧
    (KeysightControl.set_loud demoKC true).1.channel3.loud = false ∧
    (KeysightControl.set_loud demoKC true).1.channel4.loud = false ∧
    (KeysightControl.set_loud demoKC true).1.timebase.loud = false ∧
    (KeysightControl.set_loud demoKC true).1.waveform.loud = false ∧
    (KeysightControl.set_loud demoKC true).1.scope.loud = false :=
  ⟨rfl, rfl, rfl, rfl, rfl, rfl, rfl, rfl, rfl, rfl⟩

/-- C10: under a healthy error queue, constructing any Setting namespace
eagerly performs a full refresh — the construction trace is exactly one
query per Command Table entry (each with its error-queue verification),
and the constructed object has the freshness flag true with the state
mapping every display name to its queried, stripped value; consequently,
constructing the controller performs one such full refresh per facade in
construction order, plus the four waveform default-setup writes, before
returning. -/
theorem C10_eager_construction (sc : Scope) (loud : Bool) (name : String)
    (queries : List (String × String)) (alwd : List (String × List String))
    (hdev : (sc.dev (":SYSTem:ERRor?")).take 3 = "+0,") :
    Setting.init sc name queries alwd loud =
      (Except.ok (freshSetting sc name queries alwd loud), refreshTrace name queries) ∧
    (freshSetting sc name queries alwd loud).state_in_date = true ∧
    (freshSetting sc name queries alwd loud).state = refreshedState sc name queries ∧
    KeysightControl.init sc loud =
      (Except.ok (controllerOf sc loud), controllerTrace) :=
  ⟨init_ok sc name queries alwd loud hdev, rfl, rfl, controller_init_ok sc loud hdev⟩

/-- C10 witness: the healthy instrument constructs the controller with the
full per-facade refresh trace. -/
theorem C10_eager_construction_witness :
    KeysightControl.init goodScope false =
      (Except.ok (controllerOf goodScope false), controllerTrace) :=
  (C10_eager_construction goodScope false ("TRIGger") trigger_queries
    trig_cmds_allwd rfl).2.2.2
